import Mathlib

/-!
Verification of the Edge MCP Python example client
(`docs/openapi/examples/python/client.py`) against its specification.

The client is a WebSocket JSON-RPC session engine.  We embed it shallowly:

* JSON documents become the inductive `Json` (objects are association
  lists, as Python dicts with string keys).
* The mutable object state of `EdgeMCPClient` (`self.websocket`,
  `self.request_id`) becomes the record `ClientState`, threaded
  explicitly.
* The channel is modelled by the list of inbound messages that will be
  received (`inbound : List Json`) plus an explicit trace of the channel
  operations the client performs (`List ChannelOp`).
* Exceptions become the `Outcome` sum: `notConnected` is the local
  `RuntimeError("Not connected to Edge MCP")`; `mcpError` is the
  `Exception(f"MCP Error ({code}): {message}")` raised on an error
  envelope; `keyError` is a Python `KeyError` from subscripting a missing
  key; `invalidEnvelope` collapses the `TypeError`/`AttributeError`
  family raised when a decoded message has the wrong shape;
  `connectionClosed` is the `websockets` library failure when an
  operation is attempted on a closed connection; `blocked` marks a
  `recv()` that never returns because no further message arrives.
-/

namespace EdgeMCP

/-- JSON values, as decoded by `json.loads`.  Objects keep their fields as
an association list; numeric values are integers (the client only ever
builds integer ids and the claims never need floats). -/
inductive Json where
  | null
  | bool (b : Bool)
  | num (n : Int)
  | str (s : String)
  | arr (elems : List Json)
  | obj (fields : List (String × Json))
deriving Repr

/-- Association-list lookup on object fields, the semantics of Python
`d[k]` / `k in d` on a dict with string keys. -/
def lookupField : List (String × Json) → String → Option Json
  | [], _ => Option.none
  | (k, v) :: rest, key => if k = key then some v else lookupField rest key

/-- `j.lookup k`: field access when `j` is an object, otherwise nothing. -/
def Json.lookup : Json → String → Option Json
  | .obj fields, key => lookupField fields key
  | _, _ => Option.none

/-- Python `d.get(k, default)`. -/
def Json.getD (j : Json) (key : String) (d : Json) : Json :=
  (j.lookup key).getD d

/-- The keys of an object (in order), empty for non-objects. -/
def Json.keys : Json → List String
  | .obj fields => fields.map Prod.fst
  | _ => []

/-- Whether Python `len(·)` is defined on the value (str, list, dict). -/
def Json.isSized : Json → Bool
  | .arr _ => true
  | .obj _ => true
  | .str _ => true
  | _ => false

/-- State of the `self.websocket` attribute: `None`, an open connection,
or a connection object that has been closed (note: `disconnect` closes
the websocket but never resets the attribute to `None`). -/
inductive WebsocketState where
  | noneWs
  | openWs
  | closedWs
deriving Repr, DecidableEq

/-- The mutable state of an `EdgeMCPClient` instance: the `websocket`
attribute and the `request_id` counter. -/
structure ClientState where
  websocket : WebsocketState
  request_id : Nat
deriving Repr, DecidableEq

/-- `EdgeMCPClient.__init__`: `self.websocket = None`, `self.request_id = 0`. -/
def mkClient : ClientState :=
  { websocket := .noneWs, request_id := 0 }

/-- `EdgeMCPClient._next_id`: `self.request_id += 1; return self.request_id`. -/
def next_id (s : ClientState) : Nat × ClientState :=
  (s.request_id + 1, { s with request_id := s.request_id + 1 })

/-- `EdgeMCPClient.connect`: the channel is established by the external
`websockets.connect` collaborator; afterwards `self.websocket` is an open
connection. -/
def connect (s : ClientState) : ClientState :=
  { s with websocket := .openWs }

/-- An operation performed on (or attempted against) the channel. -/
inductive ChannelOp where
  | send (msg : Json)
  | recv (msg : Json)
  | close
deriving Repr

/-- Whether a channel operation is a `send`. -/
def ChannelOp.isSend : ChannelOp → Bool
  | .send _ => true
  | _ => false

/-- Whether a channel operation is a `recv`. -/
def ChannelOp.isRecv : ChannelOp → Bool
  | .recv _ => true
  | _ => false

/-- `EdgeMCPClient.disconnect`: `if self.websocket: await self.websocket.close()`.
The `websocket` attribute is left set (it is not reset to `None`). -/
def disconnect (s : ClientState) : ClientState × List ChannelOp :=
  match s.websocket with
  | .noneWs => (s, [])
  | _ => ({ s with websocket := .closedWs }, [.close])

/-- How a client call terminates, covering both normal returns and the
exceptions the Python code can raise (see the module comment). -/
inductive Outcome (α : Type) where
  | ok (v : α)
  | notConnected
  | mcpError (code : Json) (message : Json)
  | keyError (key : String)
  | invalidEnvelope
  | connectionClosed
  | blocked

/-- Propagate a non-`ok` outcome, continue on `ok`. -/
def Outcome.bindOk {α β : Type} : Outcome α → (α → Outcome β) → Outcome β
  | .ok v, f => f v
  | .notConnected, _ => .notConnected
  | .mcpError c m, _ => .mcpError c m
  | .keyError k, _ => .keyError k
  | .invalidEnvelope, _ => .invalidEnvelope
  | .connectionClosed, _ => .connectionClosed
  | .blocked, _ => .blocked

/-- The result of running one client call: the state afterwards, the
outcome delivered to the caller, the channel operations performed in
order, and the inbound messages not yet consumed. -/
structure SendResult (α : Type) where
  state : ClientState
  outcome : Outcome α
  ops : List ChannelOp
  inbound : List Json

/-- The outbound wire envelope built by `send_message` (lines 62-67):
`{"jsonrpc": "2.0", "id": request_id, "method": method, "params": params}`. -/
def requestEnvelope (id : Nat) (method : String) (params : List (String × Json)) : Json :=
  .obj [("jsonrpc", .str "2.0"), ("id", .num id),
        ("method", .str method), ("params", .obj params)]

/-- Lines 78-83 of `send_message`: inspect the received envelope.
`if "error" in response:` raise with `error['code']` / `error['message']`
(a `KeyError` when one is missing, a `TypeError` when `error` is not
subscriptable by string); otherwise `return response.get("result", {})`.
A non-dict envelope makes `response.get` (or the subscripts) raise. -/
def processResponse (response : Json) : Outcome Json :=
  match response with
  | .obj fields =>
    match lookupField fields "error" with
    | some (.obj errFields) =>
      match lookupField errFields "code" with
      | some code =>
        match lookupField errFields "message" with
        | some msg => .mcpError code msg
        | Option.none => .keyError "message"
      | Option.none => .keyError "code"
    | some _ => .invalidEnvelope
    | Option.none => .ok ((lookupField fields "result").getD (.obj []))
  | _ => .invalidEnvelope

/-- `EdgeMCPClient.send_message(method, params=None)`: raise if
`self.websocket` is `None`; allocate the next id; build the envelope with
`params or {}`; `await self.websocket.send(...)` (on a closed connection
the library raises before anything is transmitted); `await
self.websocket.recv()`; decode and process the next inbound message. -/
def send_message (s : ClientState) (method : String)
    (params : Option (List (String × Json))) (inbound : List Json) : SendResult Json :=
  match s.websocket with
  | .noneWs => { state := s, outcome := .notConnected, ops := [], inbound := inbound }
  | .closedWs =>
    match next_id s with
    | (request_id, s') =>
      let message := requestEnvelope request_id method (params.getD [])
      { state := s', outcome := .connectionClosed, ops := [.send message], inbound := inbound }
  | .openWs =>
    match next_id s with
    | (request_id, s') =>
      let message := requestEnvelope request_id method (params.getD [])
      match inbound with
      | [] => { state := s', outcome := .blocked, ops := [.send message], inbound := [] }
      | response :: rest =>
        { state := s', outcome := processResponse response,
          ops := [.send message, .recv response], inbound := rest }

/-- The literal params dict passed by `EdgeMCPClient.initialize` (lines 87-93). -/
def initParams : List (String × Json) :=
  [("protocolVersion", .str "2025-06-18"),
   ("clientInfo", .obj [("name", .str "python-example-client"),
                        ("version", .str "1.0.0")])]

/-- `EdgeMCPClient.initialize`: `send_message("initialize", {...})`, then
`send_message("initialized", {})`, then the logging line subscripts
`result['serverInfo']['name']` and `result['serverInfo']['version']`
(raising `KeyError` on a missing key), and finally returns `result`. -/
def initSession (s : ClientState) (inbound : List Json) : SendResult Json :=
  let r1 := send_message s "initialize" (some initParams) inbound
  match r1.outcome with
  | .ok result =>
    let r2 := send_message r1.state "initialized" (some []) r1.inbound
    let ops := r1.ops ++ r2.ops
    match r2.outcome with
    | .ok _ =>
      match result with
      | .obj rf =>
        match lookupField rf "serverInfo" with
        | some (.obj si) =>
          match lookupField si "name" with
          | some _ =>
            match lookupField si "version" with
            | some _ =>
              { state := r2.state, outcome := .ok result, ops := ops, inbound := r2.inbound }
            | Option.none =>
              { state := r2.state, outcome := .keyError "version", ops := ops, inbound := r2.inbound }
          | Option.none =>
            { state := r2.state, outcome := .keyError "name", ops := ops, inbound := r2.inbound }
        | some _ =>
          { state := r2.state, outcome := .invalidEnvelope, ops := ops, inbound := r2.inbound }
        | Option.none =>
          { state := r2.state, outcome := .keyError "serverInfo", ops := ops, inbound := r2.inbound }
      | _ =>
        { state := r2.state, outcome := .invalidEnvelope, ops := ops, inbound := r2.inbound }
    | o => { state := r2.state, outcome := o, ops := ops, inbound := r2.inbound }
  | _ => r1

/-- `EdgeMCPClient.list_tools`: `send_message("tools/list")` (params
omitted), then `tools = result.get("tools", [])`; the logging line
applies `len(tools)`, a `TypeError` on an unsized value. -/
def list_tools (s : ClientState) (inbound : List Json) : SendResult Json :=
  let r := send_message s "tools/list" Option.none inbound
  match r.outcome with
  | .ok result =>
    let tools := result.getD "tools" (.arr [])
    if tools.isSized then { r with outcome := .ok tools }
    else { r with outcome := .invalidEnvelope }
  | _ => r

/-- `EdgeMCPClient.call_tool(name, arguments)`:
`send_message("tools/call", {"name": name, "arguments": arguments})`. -/
def call_tool (s : ClientState) (name : String) (arguments : Json)
    (inbound : List Json) : SendResult Json :=
  send_message s "tools/call" (some [("name", .str name), ("arguments", arguments)]) inbound

/-- `EdgeMCPClient.batch_call_tools(tools, parallel=True)`: one
`send_message("tools/batch", {"tools": tools, "parallel": parallel})`;
the logging line subscripts `result['success_count']` and
`result['error_count']` before the result is returned. -/
def batch_call_tools (s : ClientState) (tools : List Json) (parallel : Bool)
    (inbound : List Json) : SendResult Json :=
  let r := send_message s "tools/batch"
    (some [("tools", .arr tools), ("parallel", .bool parallel)]) inbound
  match r.outcome with
  | .ok result =>
    match result with
    | .obj rf =>
      match lookupField rf "success_count" with
      | some _ =>
        match lookupField rf "error_count" with
        | some _ => { r with outcome := .ok result }
        | Option.none => { r with outcome := .keyError "error_count" }
      | Option.none => { r with outcome := .keyError "success_count" }
    | _ => { r with outcome := .invalidEnvelope }
  | _ => r

/-- `EdgeMCPClient.get_context`: `send_message("context.get")`. -/
def get_context (s : ClientState) (inbound : List Json) : SendResult Json :=
  send_message s "context.get" Option.none inbound

/-- `EdgeMCPClient.update_context(context, merge=True)`:
`send_message("context.update", {"context": context, "merge": merge})`;
the result value is discarded and `None` is returned. -/
def update_context (s : ClientState) (context : Json) (merge : Bool)
    (inbound : List Json) : SendResult Unit :=
  let r := send_message s "context.update"
    (some [("context", context), ("merge", .bool merge)]) inbound
  { state := r.state, outcome := r.outcome.bindOk (fun _ => .ok ()),
    ops := r.ops, inbound := r.inbound }

/-- The ids handed out by `k` successive calls of `_next_id` starting
from state `s`. -/
def allocIds : Nat → ClientState → List Nat
  | 0, _ => []
  | k + 1, s =>
    match next_id s with
    | (i, s') => i :: allocIds k s'

/-! ## Helper lemmas -/

/-- The ids allocated from state `s` are the `k` naturals following
`s.request_id`. -/
theorem allocIds_eq_range' (k : Nat) (s : ClientState) :
    allocIds k s = List.range' (s.request_id + 1) k := by
  induction k generalizing s with
  | zero => rfl
  | succ k ih =>
    simp [allocIds, next_id, ih, List.range'_succ]

/-! ## Claims -/

/-- Claim C2: the request-id counter of a fresh client starts so that the
first id allocated is 1, each allocation yields the previous id plus 1
(the ids of the first `k` requests are exactly `1, 2, ..., k`), and the
id sequence is strictly increasing, so no id is ever reused. -/
theorem request_ids_start_one_strictly_increasing (k : Nat) :
    allocIds k mkClient = List.range' 1 k ∧
    (0 < k → (allocIds k mkClient).head? = some 1) ∧
    (allocIds k mkClient).Pairwise (· < ·) := by
  have h := allocIds_eq_range' k mkClient
  refine ⟨h, ?_, ?_⟩
  · intro hk
    rw [h]
    cases k with
    | zero => exact absurd hk (by simp)
    | succ k => simp [List.range'_succ, mkClient]
  · rw [h]
    exact List.pairwise_lt_range' _ _

/-- Witness for C2 at `k = 3`. -/
theorem request_ids_witness :
    allocIds 3 mkClient = [1, 2, 3] ∧ (allocIds 3 mkClient).head? = some 1 :=
  ⟨(request_ids_start_one_strictly_increasing 3).1.trans rfl,
   (request_ids_start_one_strictly_increasing 3).2.1 (by decide)⟩

/-- Claim C1 counterexample: `send_message` does not match inbound
envelopes by id.  Here the call allocates request id 1, but the only
inbound envelope carries id 999, and its result is nevertheless returned
to the caller. -/
theorem send_message_accepts_mismatched_id :
    (send_message (connect mkClient) "tools/list" Option.none
        [Json.obj [("jsonrpc", Json.str "2.0"), ("id", Json.num 999),
                   ("result", Json.obj [("answer", Json.num 7)])]]).outcome
      = Outcome.ok (Json.obj [("answer", Json.num 7)]) ∧
    (send_message (connect mkClient) "tools/list" Option.none
        [Json.obj [("jsonrpc", Json.str "2.0"), ("id", Json.num 999),
                   ("result", Json.obj [("answer", Json.num 7)])]]).state.request_id = 1 ∧
    (Json.obj [("jsonrpc", Json.str "2.0"), ("id", Json.num 999),
               ("result", Json.obj [("answer", Json.num 7)])]).lookup "id"
      = some (Json.num 999) ∧
    (999 : Int) ≠ 1 :=
  ⟨rfl, rfl, rfl, by decide⟩

/-- Claim C1 (amended): `send_message` returns the outcome computed from
the first inbound envelope received after the request is written,
whatever id that envelope carries — no correlation by id is performed.
For an error-free envelope the result document is returned and exactly
that one envelope is consumed. -/
theorem send_message_returns_head_response (s : ClientState) (method : String)
    (params : Option (List (String × Json))) (fields : List (String × Json))
    (rest : List Json) (hopen : s.websocket = .openWs)
    (herr : lookupField fields "error" = Option.none) :
    (send_message s method params (Json.obj fields :: rest)).outcome
      = .ok ((lookupField fields "result").getD (Json.obj [])) ∧
    (send_message s method params (Json.obj fields :: rest)).inbound = rest := by
  obtain ⟨ws, rid⟩ := s
  subst hopen
  simp [send_message, next_id, processResponse, herr]

/-- Witness for the amended C1: a response whose id (42) differs from the
allocated request id (1) is still the one whose result is returned. -/
theorem send_message_returns_head_response_witness :
    (send_message ⟨.openWs, 0⟩ "context.get" Option.none
        [Json.obj [("id", Json.num 42), ("result", Json.num 7)]]).outcome
      = Outcome.ok (Json.num 7) :=
  (send_message_returns_head_response ⟨.openWs, 0⟩ "context.get" Option.none
    [("id", Json.num 42), ("result", Json.num 7)] [] rfl rfl).1

/-- Claim C9: an inbound envelope with neither an `error` key nor a
`result` key does not make `send_message` raise: the empty document is
returned. -/
theorem send_message_missing_result_defaults_empty (s : ClientState) (method : String)
    (params : Option (List (String × Json))) (fields : List (String × Json))
    (rest : List Json) (hopen : s.websocket = .openWs)
    (herr : lookupField fields "error" = Option.none)
    (hres : lookupField fields "result" = Option.none) :
    (send_message s method params (Json.obj fields :: rest)).outcome
      = Outcome.ok (Json.obj []) := by
  obtain ⟨ws, rid⟩ := s
  subst hopen
  simp [send_message, next_id, processResponse, herr, hres]

/-- Witness for C9: an envelope carrying only `jsonrpc` and `id`. -/
theorem send_message_missing_result_defaults_empty_witness :
    (send_message ⟨.openWs, 0⟩ "context.get" Option.none
        [Json.obj [("jsonrpc", Json.str "2.0"), ("id", Json.num 1)]]).outcome
      = Outcome.ok (Json.obj []) :=
  send_message_missing_result_defaults_empty ⟨.openWs, 0⟩ "context.get" Option.none
    [("jsonrpc", Json.str "2.0"), ("id", Json.num 1)] [] rfl rfl rfl

/-- Claim C10: every outbound message written by `send_message` is an
object with exactly the keys `jsonrpc`, `id`, `method`, `params`, in
which `jsonrpc` is `"2.0"` and `params` is always an object — the empty
object when the caller omitted `params`. -/
theorem outbound_message_shape (s : ClientState) (method : String)
    (params : Option (List (String × Json))) (inbound : List Json)
    (hopen : s.websocket = .openWs) :
    (send_message s method params inbound).ops.head?
      = some (.send (requestEnvelope (s.request_id + 1) method (params.getD []))) ∧
    (requestEnvelope (s.request_id + 1) method (params.getD [])).keys
      = ["jsonrpc", "id", "method", "params"] ∧
    (requestEnvelope (s.request_id + 1) method (params.getD [])).lookup "jsonrpc"
      = some (Json.str "2.0") ∧
    (∃ fs, (requestEnvelope (s.request_id + 1) method (params.getD [])).lookup "params"
      = some (Json.obj fs)) ∧
    (params = Option.none →
      (requestEnvelope (s.request_id + 1) method (params.getD [])).lookup "params"
        = some (Json.obj [])) := by
  obtain ⟨ws, rid⟩ := s
  subst hopen
  refine ⟨?_, rfl, rfl, ⟨params.getD [], rfl⟩, ?_⟩
  · cases inbound <;> rfl
  · intro h
    subst h
    rfl

/-- Witness for C10: a call with `params` omitted sends the empty params
object. -/
theorem outbound_message_shape_witness :
    (send_message ⟨.openWs, 0⟩ "tools/list" Option.none []).ops.head?
      = some (.send (requestEnvelope 1 "tools/list" [])) ∧
    (requestEnvelope 1 "tools/list" []).lookup "params" = some (Json.obj []) :=
  ⟨(outbound_message_shape ⟨.openWs, 0⟩ "tools/list" Option.none [] rfl).1,
   (outbound_message_shape ⟨.openWs, 0⟩ "tools/list" Option.none [] rfl).2.2.2.2 rfl⟩

/-- Characterisation of the error path of lines 78-83: the remote error
is re-raised with its `code` and `message` exactly when the consumed
envelope holds an `error` object carrying both fields. -/
theorem processResponse_obj_mcpError_iff (fields : List (String × Json)) (code msg : Json) :
    processResponse (Json.obj fields) = .mcpError code msg ↔
      ∃ errFields, lookupField fields "error" = some (Json.obj errFields) ∧
        lookupField errFields "code" = some code ∧
        lookupField errFields "message" = some msg := by
  cases herr : lookupField fields "error" with
  | none => simp [processResponse, herr]
  | some err =>
    cases err with
    | obj errFields =>
      cases hc : lookupField errFields "code" with
      | none => simp [processResponse, herr, hc]
      | some code' =>
        cases hm : lookupField errFields "message" with
        | none => simp [processResponse, herr, hc, hm]
        | some msg' =>
          simp only [processResponse, herr, hc, hm, Option.some.injEq, Json.obj.injEq]
          constructor
          · intro h
            cases h
            exact ⟨errFields, rfl, hc, hm⟩
          · rintro ⟨ef, hef, hcode, hmsg⟩
            subst hef
            rw [hc] at hcode
            rw [hm] at hmsg
            cases hcode
            cases hmsg
            rfl
    | null => simp [processResponse, herr]
    | bool b => simp [processResponse, herr]
    | num n => simp [processResponse, herr]
    | str t => simp [processResponse, herr]
    | arr es => simp [processResponse, herr]

/-- Claim C3: `send_message` raises the remote error, carrying its code
and message, exactly when the consumed envelope holds an `error` object
with those fields (in which case the `ok` return is never taken), and it
performs exactly one channel send and one channel receive — no retry. -/
theorem send_message_error_iff (s : ClientState) (method : String)
    (params : Option (List (String × Json))) (fields : List (String × Json))
    (rest : List Json) (hopen : s.websocket = .openWs) :
    (∀ code msg,
      (send_message s method params (Json.obj fields :: rest)).outcome
          = Outcome.mcpError code msg ↔
        ∃ errFields, lookupField fields "error" = some (Json.obj errFields) ∧
          lookupField errFields "code" = some code ∧
          lookupField errFields "message" = some msg) ∧
    (send_message s method params (Json.obj fields :: rest)).ops.countP ChannelOp.isSend = 1 ∧
    (send_message s method params (Json.obj fields :: rest)).ops.countP ChannelOp.isRecv = 1 := by
  obtain ⟨ws, rid⟩ := s
  subst hopen
  refine ⟨?_, rfl, rfl⟩
  intro code msg
  exact processResponse_obj_mcpError_iff fields code msg

/-- Witness for C3: a `method not found` error envelope is surfaced with
its code and message. -/
theorem send_message_error_iff_witness :
    (send_message ⟨.openWs, 0⟩ "tools/call" Option.none
        [Json.obj [("id", Json.num 1),
                   ("error", Json.obj [("code", Json.num (-32601)),
                                       ("message", Json.str "method not found")])]]).outcome
      = Outcome.mcpError (Json.num (-32601)) (Json.str "method not found") :=
  ((send_message_error_iff ⟨.openWs, 0⟩ "tools/call" Option.none
      [("id", Json.num 1),
       ("error", Json.obj [("code", Json.num (-32601)),
                           ("message", Json.str "method not found")])]
      [] rfl).1 (Json.num (-32601)) (Json.str "method not found")).mpr
    ⟨[("code", Json.num (-32601)), ("message", Json.str "method not found")], rfl, rfl, rfl⟩

/-- Claim C4 counterexample: the second handshake operation is not a
Notification.  On a concrete run the second outbound message is built by
`send_message`, so it carries the id 2 (a Notification would carry no
id). -/
theorem initialized_sent_with_id :
    (initSession (connect mkClient)
        [Json.obj [("id", Json.num 1),
                   ("result", Json.obj [("serverInfo",
                      Json.obj [("name", Json.str "edge-mcp"),
                                ("version", Json.str "1.0")])])],
         Json.obj [("id", Json.num 2), ("result", Json.obj [])]]).ops
      = [.send (requestEnvelope 1 "initialize" initParams),
         .recv (Json.obj [("id", Json.num 1),
                   ("result", Json.obj [("serverInfo",
                      Json.obj [("name", Json.str "edge-mcp"),
                                ("version", Json.str "1.0")])])]),
         .send (requestEnvelope 2 "initialized" []),
         .recv (Json.obj [("id", Json.num 2), ("result", Json.obj [])])] ∧
    (requestEnvelope 2 "initialized" []).lookup "id" = some (Json.num 2) :=
  ⟨rfl, rfl⟩

/-- Claim C4 (amended): the handshake performs exactly two operations in
a fixed order — an `initialize` request with the client's
protocolVersion and clientInfo whose response is received before the
second operation begins, then an `initialized` message with empty params
sent as a correlated Request carrying the next id (not as an id-less
Notification) and likewise awaited. -/
theorem handshake_two_requests (s : ClientState) (r1fields : List (String × Json))
    (r2 : Json) (rest : List Json) (hopen : s.websocket = .openWs)
    (herr : lookupField r1fields "error" = Option.none) :
    (initSession s (Json.obj r1fields :: r2 :: rest)).ops
      = [.send (requestEnvelope (s.request_id + 1) "initialize" initParams),
         .recv (Json.obj r1fields),
         .send (requestEnvelope (s.request_id + 2) "initialized" []),
         .recv r2] ∧
    (requestEnvelope (s.request_id + 2) "initialized" []).lookup "id"
      = some (Json.num (s.request_id + 2)) := by
  obtain ⟨ws, rid⟩ := s
  subst hopen
  refine ⟨?_, rfl⟩
  simp only [initSession, send_message, next_id, processResponse, herr]
  split <;> (repeat' split) <;> rfl

/-- Witness for the amended C4. -/
theorem handshake_two_requests_witness :
    (initSession ⟨.openWs, 0⟩ [Json.obj [("result", Json.obj [])], Json.obj []]).ops
      = [.send (requestEnvelope 1 "initialize" initParams),
         .recv (Json.obj [("result", Json.obj [])]),
         .send (requestEnvelope 2 "initialized" []),
         .recv (Json.obj [])] :=
  (handshake_two_requests ⟨.openWs, 0⟩ [("result", Json.obj [])] (Json.obj []) [] rfl rfl).1

/-- Claim C5 counterexample: after `disconnect` completes, a
`send_message` does not fail with the client's local error — the
`websocket` attribute is still set, so the guard is skipped and a send is
attempted on the closed channel (the outcome is the transport-level
connection-closed failure, and the channel-operation trace is
non-empty). -/
theorem send_after_disconnect_attempts_channel_send :
    (send_message (disconnect (connect mkClient)).1 "tools/list" Option.none []).outcome
      = Outcome.connectionClosed ∧
    (send_message (disconnect (connect mkClient)).1 "tools/list" Option.none []).outcome
      ≠ Outcome.notConnected ∧
    (send_message (disconnect (connect mkClient)).1 "tools/list" Option.none []).ops
      = [.send (requestEnvelope 1 "tools/list" [])] :=
  ⟨rfl, by intro h; exact Outcome.noConfusion h, rfl⟩

/-- Claim C5 (amended): after `disconnect` on a client whose channel was
ever set, a subsequent `send_message` does not fail fast with the local
not-connected error — `disconnect` leaves the `websocket` attribute set,
so the client builds the next envelope and attempts a send on the closed
channel, failing with the transport-level connection-closed error. -/
theorem send_after_disconnect_not_local_error (s : ClientState) (method : String)
    (params : Option (List (String × Json))) (inbound : List Json)
    (hconn : s.websocket ≠ .noneWs) :
    (send_message (disconnect s).1 method params inbound).outcome
      = Outcome.connectionClosed ∧
    (send_message (disconnect s).1 method params inbound).ops
      = [.send (requestEnvelope (s.request_id + 1) method (params.getD []))] := by
  obtain ⟨ws, rid⟩ := s
  cases ws with
  | noneWs => exact absurd rfl hconn
  | openWs => exact ⟨rfl, rfl⟩
  | closedWs => exact ⟨rfl, rfl⟩

/-- Witness for the amended C5. -/
theorem send_after_disconnect_witness :
    (send_message (disconnect (connect mkClient)).1 "context.get" Option.none []).outcome
      = Outcome.connectionClosed :=
  (send_after_disconnect_not_local_error (connect mkClient) "context.get" Option.none []
    (by decide)).1

/-- Claim C6: for any batch of calls and either value of the `parallel`
flag, `batch_call_tools` writes exactly one Request envelope — method
`tools/batch`, params holding the full list of calls and the flag — and
awaits exactly one Response; when that Response carries a well-formed
Batch Result it is returned whole.  The client never issues one Request
per batched call. -/
theorem batch_single_request (s : ClientState) (tools : List Json) (parallel : Bool)
    (r : Json) (rest : List Json) (hopen : s.websocket = .openWs) :
    (batch_call_tools s tools parallel (r :: rest)).ops
      = [.send (requestEnvelope (s.request_id + 1) "tools/batch"
            [("tools", Json.arr tools), ("parallel", Json.bool parallel)]),
         .recv r] ∧
    (batch_call_tools s tools parallel (r :: rest)).ops.countP ChannelOp.isSend = 1 ∧
    (batch_call_tools s tools parallel (r :: rest)).ops.countP ChannelOp.isRecv = 1 ∧
    (∀ rfields resFields sc ec,
      r = Json.obj rfields →
      lookupField rfields "error" = Option.none →
      lookupField rfields "result" = some (Json.obj resFields) →
      lookupField resFields "success_count" = some sc →
      lookupField resFields "error_count" = some ec →
      (batch_call_tools s tools parallel (r :: rest)).outcome
        = Outcome.ok (Json.obj resFields)) := by
  obtain ⟨ws, rid⟩ := s
  subst hopen
  refine ⟨?_, ?_, ?_, ?_⟩
  · simp only [batch_call_tools, send_message, next_id]
    split <;> (repeat' split) <;> rfl
  · simp only [batch_call_tools, send_message, next_id]
    split <;> (repeat' split) <;> rfl
  · simp only [batch_call_tools, send_message, next_id]
    split <;> (repeat' split) <;> rfl
  · intro rfields resFields sc ec hr herr hres hsc hec
    subst hr
    simp [batch_call_tools, send_message, next_id, processResponse, herr,
      Json.getD, Json.lookup, hres, hsc, hec]

/-- Witness for C6: a two-call batch yields one request and one awaited
response, whose result is returned whole. -/
theorem batch_single_request_witness :
    (batch_call_tools ⟨.openWs, 0⟩
        [Json.obj [("id", Json.str "call-1")], Json.obj [("id", Json.str "call-2")]] true
        [Json.obj [("id", Json.num 1),
                   ("result", Json.obj [("success_count", Json.num 1),
                                        ("error_count", Json.num 1)])]]).ops
      = [.send (requestEnvelope 1 "tools/batch"
            [("tools", Json.arr [Json.obj [("id", Json.str "call-1")],
                                 Json.obj [("id", Json.str "call-2")]]),
             ("parallel", Json.bool true)]),
         .recv (Json.obj [("id", Json.num 1),
                   ("result", Json.obj [("success_count", Json.num 1),
                                        ("error_count", Json.num 1)])])] ∧
    (batch_call_tools ⟨.openWs, 0⟩
        [Json.obj [("id", Json.str "call-1")], Json.obj [("id", Json.str "call-2")]] true
        [Json.obj [("id", Json.num 1),
                   ("result", Json.obj [("success_count", Json.num 1),
                                        ("error_count", Json.num 1)])]]).outcome
      = Outcome.ok (Json.obj [("success_count", Json.num 1), ("error_count", Json.num 1)]) :=
  ⟨(batch_single_request ⟨.openWs, 0⟩
      [Json.obj [("id", Json.str "call-1")], Json.obj [("id", Json.str "call-2")]] true
      (Json.obj [("id", Json.num 1),
                 ("result", Json.obj [("success_count", Json.num 1),
                                      ("error_count", Json.num 1)])]) [] rfl).1,
   (batch_single_request ⟨.openWs, 0⟩
      [Json.obj [("id", Json.str "call-1")], Json.obj [("id", Json.str "call-2")]] true
      (Json.obj [("id", Json.num 1),
                 ("result", Json.obj [("success_count", Json.num 1),
                                      ("error_count", Json.num 1)])]) [] rfl).2.2.2
      [("id", Json.num 1),
       ("result", Json.obj [("success_count", Json.num 1), ("error_count", Json.num 1)])]
      [("success_count", Json.num 1), ("error_count", Json.num 1)]
      (Json.num 1) (Json.num 1) rfl rfl rfl rfl rfl⟩

/-- Claim C7: `list_tools` performs a single call with method
`tools/list`, and when the server's result advertises zero tools (the
`tools` list empty or absent, or the whole `result` absent) it returns
the empty sequence rather than failing. -/
theorem list_tools_zero_tools_ok (s : ClientState) (fields : List (String × Json))
    (rest : List Json) (hopen : s.websocket = .openWs)
    (herr : lookupField fields "error" = Option.none)
    (hzero : lookupField fields "result" = Option.none ∨
      ∃ resFields, lookupField fields "result" = some (Json.obj resFields) ∧
        (lookupField resFields "tools" = Option.none ∨
         lookupField resFields "tools" = some (Json.arr []))) :
    (list_tools s (Json.obj fields :: rest)).outcome = Outcome.ok (Json.arr []) ∧
    (list_tools s (Json.obj fields :: rest)).ops
      = [.send (requestEnvelope (s.request_id + 1) "tools/list" []),
         .recv (Json.obj fields)] := by
  obtain ⟨ws, rid⟩ := s
  subst hopen
  rcases hzero with h | ⟨resFields, hres, htools⟩
  · constructor <;>
      simp [list_tools, send_message, next_id, processResponse, herr, h,
        Json.getD, Json.lookup, lookupField, Json.isSized]
  · rcases htools with ht | ht <;> constructor <;>
      simp [list_tools, send_message, next_id, processResponse, herr, hres, ht,
        Json.getD, Json.lookup, lookupField, Json.isSized]

/-- Witness for C7: a server whose result document lacks the `tools` key
still yields the empty list. -/
theorem list_tools_zero_tools_witness :
    (list_tools ⟨.openWs, 0⟩
        [Json.obj [("id", Json.num 1), ("result", Json.obj [])]]).outcome
      = Outcome.ok (Json.arr []) :=
  (list_tools_zero_tools_ok ⟨.openWs, 0⟩
    [("id", Json.num 1), ("result", Json.obj [])] [] rfl rfl
    (Or.inr ⟨[], rfl, Or.inl rfl⟩)).1

/-- Claim C8 counterexample: `update_context` can return successfully
without the matching Response ever arriving.  Here the request is sent
with id 1, the only inbound envelope carries id 55, and the call still
completes with that envelope. -/
theorem update_context_returns_without_matching_response :
    (update_context (connect mkClient) (Json.obj [("project", Json.str "x")]) true
        [Json.obj [("id", Json.num 55), ("result", Json.obj [])]]).outcome
      = Outcome.ok () ∧
    (update_context (connect mkClient) (Json.obj [("project", Json.str "x")]) true
        [Json.obj [("id", Json.num 55), ("result", Json.obj [])]]).state.request_id = 1 ∧
    (Json.obj [("id", Json.num 55), ("result", Json.obj [])]).lookup "id"
      = some (Json.num 55) ∧
    (55 : Int) ≠ 1 :=
  ⟨rfl, rfl, rfl, by decide⟩

/-- Claim C8 (amended): `update_context` performs a single call with
method `context.update` whose params object is exactly
`{context: <the document, unchanged>, merge: <the flag>}`, and does not
return until an inbound Response envelope has been received — the next
envelope on the channel, taken without id matching — so a subsequent
`get_context` consumes only later envelopes. -/
theorem update_context_single_call_exact_params (s : ClientState) (ctx : Json)
    (merge : Bool) (fields : List (String × Json)) (rest : List Json)
    (hopen : s.websocket = .openWs)
    (herr : lookupField fields "error" = Option.none) :
    (update_context s ctx merge (Json.obj fields :: rest)).ops
      = [.send (requestEnvelope (s.request_id + 1) "context.update"
            [("context", ctx), ("merge", Json.bool merge)]),
         .recv (Json.obj fields)] ∧
    (update_context s ctx merge (Json.obj fields :: rest)).outcome = Outcome.ok () ∧
    (update_context s ctx merge (Json.obj fields :: rest)).inbound = rest := by
  obtain ⟨ws, rid⟩ := s
  subst hopen
  refine ⟨rfl, ?_, rfl⟩
  simp [update_context, send_message, next_id, processResponse, herr, Outcome.bindOk]

/-- Witness for the amended C8. -/
theorem update_context_single_call_witness :
    (update_context ⟨.openWs, 0⟩ (Json.obj [("task", Json.str "docs")]) false
        [Json.obj [("id", Json.num 1), ("result", Json.obj [])]]).ops
      = [.send (requestEnvelope 1 "context.update"
            [("context", Json.obj [("task", Json.str "docs")]), ("merge", Json.bool false)]),
         .recv (Json.obj [("id", Json.num 1), ("result", Json.obj [])])] :=
  (update_context_single_call_exact_params ⟨.openWs, 0⟩
    (Json.obj [("task", Json.str "docs")]) false
    [("id", Json.num 1), ("result", Json.obj [])] [] rfl rfl).1

end EdgeMCP
